import Mathlib

/-!
# Verification of the MCP content-routing and quality-scoring core

Shallow embedding of `src/mcp_server/quality_scorer.py`, `src/content_router/router.py`
and the data model of `src/mcp_protocol.py`.

Modelling conventions:
* Python floats are modelled as rationals (`ℚ`); arithmetic is exact.
* Python dicts are modelled as insertion-ordered association lists with unique keys
  (`dictSet` updates in place, appends new keys at the end, like CPython dicts).
* Python timestamps (`datetime`) are modelled as integer seconds;
  `timedelta.days` floors toward negative infinity, hence `Int.fdiv`.
* Functions that can raise are modelled with `Except String`; mutators additionally
  return the post-call state (second component) so that partial mutation before a
  raise is observable.
-/

/-- The `ScoringFactors` enum from quality_scorer.py. -/
inductive ScoringFactors where
  | source_reliability
  | content_freshness
  | relevance
  | completeness
  | accuracy
  | citation_count
  | user_feedback
  | processing_quality
deriving DecidableEq

/-- Python dict update `d[k] = v`: replace in place if the key is present,
else append the new binding at the end (CPython insertion order). -/
def dictSet {α β : Type} [DecidableEq α] (d : List (α × β)) (k : α) (v : β) :
    List (α × β) :=
  if d.any (fun p => decide (p.1 = k)) then
    d.map (fun p => if p.1 = k then (p.1, v) else p)
  else
    d ++ [(k, v)]

/-- Python dict lookup `d.get(k)` as an option. -/
def dictGet? {α β : Type} [DecidableEq α] (d : List (α × β)) (k : α) : Option β :=
  (d.find? (fun p => decide (p.1 = k))).map Prod.snd

/-- Python dict lookup with default, `d.get(k, fallback)`. -/
def dictGetD {α β : Type} [DecidableEq α] (d : List (α × β)) (k : α) (fallback : β) : β :=
  (dictGet? d k).getD fallback

/-- Python `sum(d.values())` for a dict of rationals. -/
def sumValues {α : Type} (d : List (α × ℚ)) : ℚ :=
  (d.map Prod.snd).sum

/-- Default `factor_weights` table from `QualityScorer.__init__`
(seven entries; `processing_quality` is not present). -/
def default_factor_weights : List (ScoringFactors × ℚ) :=
  [(.source_reliability, 0.25),
   (.content_freshness, 0.15),
   (.relevance, 0.25),
   (.completeness, 0.15),
   (.accuracy, 0.15),
   (.citation_count, 0.03),
   (.user_feedback, 0.02)]

/-- Default `source_reliability_scores` table from `QualityScorer.__init__`. -/
def default_source_reliability_scores : List (String × ℚ) :=
  [("memory", 0.95),
   ("verified_api", 0.90),
   ("published_research", 0.85),
   ("news_aggregator", 0.75),
   ("web_search", 0.65),
   ("social_media", 0.40),
   ("user_generated", 0.50)]

/-- Model of `QualityScorer.set_factor_weight`.  Returns the call result together with the
post-call weight table.  The range check happens before any mutation.  On success
the target weight is assigned and then every weight is divided by the new total.
If the new total is zero, the in-place division `self.factor_weights[key] /= total`
raises `ZeroDivisionError` on the first loop iteration: the assignment of the new
weight has already happened, no division has been applied. -/
def set_factor_weight (factor_weights : List (ScoringFactors × ℚ))
    (factor : ScoringFactors) (weight : ℚ) :
    Except String (List (ScoringFactors × ℚ)) × List (ScoringFactors × ℚ) :=
  if ¬ (0 ≤ weight ∧ weight ≤ 1) then
    (Except.error "Weight must be between 0 and 1", factor_weights)
  else
    let assigned := dictSet factor_weights factor weight
    let total := sumValues assigned
    if total = 0 then
      (Except.error "ZeroDivisionError: float division by zero", assigned)
    else
      let normalized := assigned.map (fun p => (p.1, p.2 / total))
      (Except.ok normalized, normalized)

/-- Model of `QualityScorer.set_source_reliability`.  Range check before mutation;
on success inserts or overwrites the entry. -/
def set_source_reliability (tbl : List (String × ℚ))
    (source_type : String) (reliability : ℚ) :
    Except String (List (String × ℚ)) × List (String × ℚ) :=
  if ¬ (0 ≤ reliability ∧ reliability ≤ 1) then
    (Except.error "Reliability must be between 0 and 1", tbl)
  else
    let updated := dictSet tbl source_type reliability
    (Except.ok updated, updated)

theorem sumValues_map_div {α : Type} (d : List (α × ℚ)) (t : ℚ) :
    sumValues (d.map (fun p => (p.1, p.2 / t))) = sumValues d / t := by
  induction d with
  | nil => simp [sumValues]
  | cons p ps ih =>
      simp only [sumValues, List.map_cons, List.sum_cons] at *
      rw [ih, add_div]

/-- One zeroing call, observed through the post-call table. -/
def zeroStep (tbl : List (ScoringFactors × ℚ)) (f : ScoringFactors) :
    List (ScoringFactors × ℚ) :=
  (set_factor_weight tbl f 0).2

/-- The weight table obtained from the default table by six valid calls
`set_factor_weight(f, 0.0)`, one per factor except `user_feedback`. -/
def zeroedChain : List (ScoringFactors × ℚ) :=
  zeroStep (zeroStep (zeroStep (zeroStep (zeroStep (zeroStep default_factor_weights
    .source_reliability) .content_freshness) .relevance) .completeness)
    .accuracy) .citation_count

/-- C1 counterexample: the claim quantifies over every factor and every weight
in `[0,1]`, but the call does not always succeed.  Starting from the default
table, six successful calls `set_factor_weight(f, 0.0)` zero out every factor
except `user_feedback`, which renormalization drives to weight `1`.  The next
call `set_factor_weight(user_feedback, 0.0)` — whose weight `0` is inside
`[0,1]` — makes the post-assignment total `0`, and the renormalizing division
raises `ZeroDivisionError` instead of succeeding. -/
theorem set_factor_weight_total_zero_cex :
    (set_factor_weight default_factor_weights
      .source_reliability 0).1.isOk = true ∧
    (set_factor_weight (zeroStep default_factor_weights .source_reliability)
      .content_freshness 0).1.isOk = true ∧
    (set_factor_weight (zeroStep (zeroStep default_factor_weights
      .source_reliability) .content_freshness) .relevance 0).1.isOk = true ∧
    (set_factor_weight (zeroStep (zeroStep (zeroStep default_factor_weights
      .source_reliability) .content_freshness) .relevance)
      .completeness 0).1.isOk = true ∧
    (set_factor_weight (zeroStep (zeroStep (zeroStep (zeroStep
      default_factor_weights .source_reliability) .content_freshness)
      .relevance) .completeness) .accuracy 0).1.isOk = true ∧
    (set_factor_weight (zeroStep (zeroStep (zeroStep (zeroStep (zeroStep
      default_factor_weights .source_reliability) .content_freshness)
      .relevance) .completeness) .accuracy) .citation_count 0).1.isOk = true ∧
    zeroedChain =
      [(.source_reliability, 0), (.content_freshness, 0), (.relevance, 0),
       (.completeness, 0), (.accuracy, 0), (.citation_count, 0),
       (.user_feedback, 1)] ∧
    (0 : ℚ) ≤ 0 ∧ (0 : ℚ) ≤ 1 ∧
    (set_factor_weight zeroedChain ScoringFactors.user_feedback 0).1 =
      Except.error "ZeroDivisionError: float division by zero" := by
  refine ⟨?_, ?_, ?_, ?_, ?_, ?_, ?_, by norm_num, by norm_num, ?_⟩ <;>
    norm_num +decide [zeroedChain, zeroStep, set_factor_weight, dictSet,
      sumValues, default_factor_weights, Except.isOk]

/-- C1 (amended): for every factor and every weight `w` with `0 ≤ w ≤ 1` such
that the post-assignment weight total is nonzero, `set_factor_weight` succeeds
and the resulting weight table sums to exactly `1`, every weight (including the
just-set one) having been divided by the post-assignment total. -/
theorem set_factor_weight_normalizes (tbl : List (ScoringFactors × ℚ))
    (factor : ScoringFactors) (w : ℚ) (h0 : 0 ≤ w) (h1 : w ≤ 1)
    (ht : sumValues (dictSet tbl factor w) ≠ 0) :
    (set_factor_weight tbl factor w).1 =
      Except.ok (set_factor_weight tbl factor w).2 ∧
    sumValues (set_factor_weight tbl factor w).2 = 1 := by
  have hcond : ¬ ¬ (0 ≤ w ∧ w ≤ 1) := not_not_intro ⟨h0, h1⟩
  simp only [set_factor_weight, if_neg hcond, if_neg ht]
  refine ⟨by trivial, ?_⟩
  rw [sumValues_map_div]
  exact div_self ht

/-- Witness for C1: setting the relevance weight to `0.5` on the default table
succeeds and renormalizes the table to total `1`. -/
theorem set_factor_weight_normalizes_witness :
    (set_factor_weight default_factor_weights ScoringFactors.relevance 0.5).1 =
      Except.ok (set_factor_weight default_factor_weights
        ScoringFactors.relevance 0.5).2 ∧
    sumValues (set_factor_weight default_factor_weights
      ScoringFactors.relevance 0.5).2 = 1 :=
  set_factor_weight_normalizes _ _ _ (by norm_num) (by norm_num)
    (by simp [dictSet, sumValues, default_factor_weights]; norm_num)

/-- C9: when the new weight is outside `[0,1]`, `set_factor_weight` fails with
the range error and the weight table is unchanged (the range check precedes any
mutation, so no renormalization occurs); likewise `set_source_reliability`
fails and leaves the reliability table unchanged. -/
theorem mutators_error_leave_tables_unchanged
    (wtbl : List (ScoringFactors × ℚ)) (rtbl : List (String × ℚ))
    (factor : ScoringFactors) (source_type : String) (w r : ℚ)
    (hw : w < 0 ∨ 1 < w) (hr : r < 0 ∨ 1 < r) :
    set_factor_weight wtbl factor w =
      (Except.error "Weight must be between 0 and 1", wtbl) ∧
    set_source_reliability rtbl source_type r =
      (Except.error "Reliability must be between 0 and 1", rtbl) := by
  have hw2 : ¬ (0 ≤ w ∧ w ≤ 1) := by
    rcases hw with h | h
    · exact fun hc => absurd hc.1 (not_le.mpr h)
    · exact fun hc => absurd hc.2 (not_le.mpr h)
  have hr2 : ¬ (0 ≤ r ∧ r ≤ 1) := by
    rcases hr with h | h
    · exact fun hc => absurd hc.1 (not_le.mpr h)
    · exact fun hc => absurd hc.2 (not_le.mpr h)
  constructor
  · simp only [set_factor_weight, if_pos hw2]
  · simp only [set_source_reliability, if_pos hr2]

/-- Witness for C9: weight `2` and reliability `-1` are rejected and the
default tables are unchanged. -/
theorem mutators_error_leave_tables_unchanged_witness :
    set_factor_weight default_factor_weights ScoringFactors.relevance 2 =
      (Except.error "Weight must be between 0 and 1",
        default_factor_weights) ∧
    set_source_reliability default_source_reliability_scores "memory" (-1) =
      (Except.error "Reliability must be between 0 and 1",
        default_source_reliability_scores) :=
  mutators_error_leave_tables_unchanged default_factor_weights
    default_source_reliability_scores ScoringFactors.relevance "memory" 2 (-1)
    (Or.inr (by norm_num)) (Or.inl (by norm_num))

/-- Helper for Python `s.split()`: cut a character list at whitespace
characters, keeping (possibly empty) pieces. -/
def splitWsAux : List Char → List Char → List (List Char)
  | [], acc => [acc.reverse]
  | c :: cs, acc =>
      if c.isWhitespace then acc.reverse :: splitWsAux cs []
      else splitWsAux cs (c :: acc)

/-- Python `s.split()` with no separator: split on runs of whitespace and drop
empty pieces. -/
def pySplitWs (s : String) : List String :=
  ((splitWsAux s.data []).map (fun cs => String.mk cs)).filter
    (fun w => decide (w ≠ ""))

/-- Model of `QualityScorer._score_source_reliability`: table lookup with default
`0.5` for unknown source types. -/
def score_source_reliability (tbl : List (String × ℚ)) (source_type : String) : ℚ :=
  dictGetD tbl source_type 0.5

/-- Model of `QualityScorer._days_old`: `(datetime.utcnow() - created_at).days`.
Timestamps are integer seconds; `timedelta.days` floors toward negative
infinity, which is `Int.fdiv` by the number of seconds in a day. -/
def days_old (now created_at : ℤ) : ℤ :=
  Int.fdiv (now - created_at) 86400

/-- The age-in-days step function inside `QualityScorer._score_freshness`. -/
def score_freshness_of_days (d : ℤ) : ℚ :=
  if d ≤ 30 then 1.0
  else if d ≤ 90 then 0.9
  else if d ≤ 180 then 0.75
  else if d ≤ 365 then 0.5
  else max 0.2 (1.0 - (d : ℚ) / (365 * 2))

/-- Model of `QualityScorer._score_freshness`. -/
def score_freshness (now created_at : ℤ) : ℚ :=
  score_freshness_of_days (days_old now created_at)

/-- Model of `QualityScorer._score_completeness`: blend of a length score saturating at
500 words with the caller-supplied base score. -/
def score_completeness (content : String) (base_score : ℚ) : ℚ :=
  let word_count : ℕ := (pySplitWs content).length
  let length_score : ℚ := min ((word_count : ℚ) / 500) 1.0
  length_score * 0.3 + base_score * 0.7

/-- The `ContentQuality` enum from utils.py. -/
inductive ContentQuality where
  | low
  | medium
  | high
  | verified
deriving DecidableEq

/-- Model of `QualityScorer._determine_quality_level`. -/
def determine_quality_level (score : ℚ) : ContentQuality :=
  if score ≥ 0.9 then .verified
  else if score ≥ 0.75 then .high
  else if score ≥ 0.5 then .medium
  else .low

/-- The `ScoreComponent` dataclass (the human-readable `reasoning` f-string is not
modelled; no claim mentions it). -/
structure ScoreComponent where
  factor : ScoringFactors
  weight : ℚ
  value : ℚ
deriving DecidableEq

/-- Model of `ScoreComponent.calculate`. -/
def ScoreComponent.calculate (c : ScoreComponent) : ℚ :=
  c.value * c.weight

/-- The dictionary returned by `QualityScorer.score_content`. -/
structure ScoreResult where
  overall_score : ℚ
  quality_level : ContentQuality
  components : List ScoreComponent
deriving DecidableEq

/-- The mutable state of a `QualityScorer` instance. -/
structure QualityScorer where
  factor_weights : List (ScoringFactors × ℚ)
  source_reliability_scores : List (String × ℚ)

/-- Model of `QualityScorer.__init__`. -/
def QualityScorer.init : QualityScorer :=
  ⟨default_factor_weights, default_source_reliability_scores⟩

/-- Python `self.factor_weights[f]`: raises `KeyError` when the factor has no
entry (only possible for `processing_quality`, which the defaults omit). -/
def weightOf (tbl : List (ScoringFactors × ℚ)) (f : ScoringFactors) :
    Except String ℚ :=
  match dictGet? tbl f with
  | some v => Except.ok v
  | none => Except.error "KeyError"

/-- Model of `QualityScorer.score_content`.  The seven weight lookups are hoisted to the
front; in the source they happen one component at a time, but each can only
raise `KeyError`, so the observable behavior is identical.  The citation value
is `min(citation_count / 10, 1.0)` and the overall score is the sum of
`value * weight` over the seven components, clamped to `[0, 1]` by
`min(max(overall_score, 0), 1)`. -/
def score_content (scorer : QualityScorer) (now : ℤ) (content : String)
    (source_type : String) (created_at : ℤ)
    (relevance_score completeness_score accuracy_score : ℚ)
    (citation_count : ℕ) (user_feedback_score : ℚ) :
    Except String ScoreResult := do
  let w1 ← weightOf scorer.factor_weights .source_reliability
  let w2 ← weightOf scorer.factor_weights .content_freshness
  let w3 ← weightOf scorer.factor_weights .relevance
  let w4 ← weightOf scorer.factor_weights .completeness
  let w5 ← weightOf scorer.factor_weights .accuracy
  let w6 ← weightOf scorer.factor_weights .citation_count
  let w7 ← weightOf scorer.factor_weights .user_feedback
  let components : List ScoreComponent :=
    [⟨.source_reliability, w1,
        score_source_reliability scorer.source_reliability_scores source_type⟩,
     ⟨.content_freshness, w2, score_freshness now created_at⟩,
     ⟨.relevance, w3, relevance_score⟩,
     ⟨.completeness, w4, score_completeness content completeness_score⟩,
     ⟨.accuracy, w5, accuracy_score⟩,
     ⟨.citation_count, w6, min ((citation_count : ℚ) / 10) 1.0⟩,
     ⟨.user_feedback, w7, user_feedback_score⟩]
  let overall_score := (components.map ScoreComponent.calculate).sum
  let clamped := min (max overall_score 0) 1
  Except.ok ⟨clamped, determine_quality_level clamped, components⟩

theorem decay_le_half {d : ℤ} (hd : (366 : ℤ) ≤ d) :
    max 0.2 (1.0 - (d : ℚ) / (365 * 2)) ≤ 0.5 := by
  have hc : (366 : ℚ) ≤ (d : ℚ) := by exact_mod_cast hd
  apply max_le
  · norm_num
  · linarith

theorem decay_mono {d1 d2 : ℤ} (h : d1 ≤ d2) :
    max 0.2 (1.0 - (d2 : ℚ) / (365 * 2)) ≤
      max 0.2 (1.0 - (d1 : ℚ) / (365 * 2)) := by
  have hc : (d1 : ℚ) ≤ (d2 : ℚ) := Int.cast_le.mpr h
  exact max_le_max (le_refl _) (by linarith)

theorem score_days_le_one (d : ℤ) : score_freshness_of_days d ≤ 1.0 := by
  unfold score_freshness_of_days
  split_ifs <;> first
    | (norm_num; done)
    | exact le_trans (decay_le_half (by omega)) (by norm_num)

theorem score_days_le_of_30 {d : ℤ} (hd : 30 < d) :
    score_freshness_of_days d ≤ 0.9 := by
  unfold score_freshness_of_days
  rw [if_neg (by omega)]
  split_ifs <;> first
    | (norm_num; done)
    | exact le_trans (decay_le_half (by omega)) (by norm_num)

theorem score_days_le_of_90 {d : ℤ} (hd : 90 < d) :
    score_freshness_of_days d ≤ 0.75 := by
  unfold score_freshness_of_days
  rw [if_neg (by omega), if_neg (by omega)]
  split_ifs <;> first
    | (norm_num; done)
    | exact le_trans (decay_le_half (by omega)) (by norm_num)

theorem score_days_le_of_180 {d : ℤ} (hd : 180 < d) :
    score_freshness_of_days d ≤ 0.5 := by
  unfold score_freshness_of_days
  rw [if_neg (by omega), if_neg (by omega), if_neg (by omega)]
  split_ifs <;> first
    | (norm_num; done)
    | exact decay_le_half (by omega)

theorem score_freshness_of_days_antitone {d1 d2 : ℤ} (h : d1 ≤ d2) :
    score_freshness_of_days d2 ≤ score_freshness_of_days d1 := by
  by_cases h1 : d1 ≤ 30
  · have e : score_freshness_of_days d1 = 1.0 := by
      unfold score_freshness_of_days; rw [if_pos h1]
    rw [e]; exact score_days_le_one d2
  by_cases h2 : d1 ≤ 90
  · have e : score_freshness_of_days d1 = 0.9 := by
      unfold score_freshness_of_days; rw [if_neg h1, if_pos h2]
    rw [e]; exact score_days_le_of_30 (by omega)
  by_cases h3 : d1 ≤ 180
  · have e : score_freshness_of_days d1 = 0.75 := by
      unfold score_freshness_of_days; rw [if_neg h1, if_neg h2, if_pos h3]
    rw [e]; exact score_days_le_of_90 (by omega)
  by_cases h4 : d1 ≤ 365
  · have e : score_freshness_of_days d1 = 0.5 := by
      unfold score_freshness_of_days
      rw [if_neg h1, if_neg h2, if_neg h3, if_pos h4]
    rw [e]; exact score_days_le_of_180 (by omega)
  · have e1 : score_freshness_of_days d1 =
        max 0.2 (1.0 - (d1 : ℚ) / (365 * 2)) := by
      unfold score_freshness_of_days
      rw [if_neg h1, if_neg h2, if_neg h3, if_neg h4]
    have e2 : score_freshness_of_days d2 =
        max 0.2 (1.0 - (d2 : ℚ) / (365 * 2)) := by
      unfold score_freshness_of_days
      rw [if_neg (by omega), if_neg (by omega), if_neg (by omega),
        if_neg (by omega)]
    rw [e1, e2]; exact decay_mono h

/-- C3: at a fixed current time, the freshness score of older content is at
most the freshness score of newer content: the age in whole days is a
non-increasing function of `created_at`, and the day-step function (tiers
30/90/180/365 and the decay regime `max(0.2, 1 - age_days/730)`) is
non-increasing in the age. -/
theorem freshness_monotone_nonincreasing (now t_old t_new : ℤ)
    (h : t_old ≤ t_new) :
    score_freshness now t_old ≤ score_freshness now t_new := by
  unfold score_freshness
  apply score_freshness_of_days_antitone
  unfold days_old
  rw [Int.fdiv_eq_ediv _ (by norm_num), Int.fdiv_eq_ediv _ (by norm_num)]
  exact Int.ediv_le_ediv (by norm_num) (by omega)

/-- Witness for C3: content created 400 days before the clock scores at most
as much as content created at the clock instant. -/
theorem freshness_monotone_nonincreasing_witness :
    (-34560000 : ℤ) ≤ 0 ∧ score_freshness 0 (-34560000) ≤ score_freshness 0 0 :=
  ⟨by norm_num, freshness_monotone_nonincreasing 0 (-34560000) 0 (by norm_num)⟩

/-- C4: whenever `score_content` returns a result, its `overall_score` lies in
`[0, 1]`: the weighted sum of the seven components is clamped by
`min(max(overall_score, 0), 1)`. -/
theorem score_content_overall_in_unit_interval
    (scorer : QualityScorer) (now : ℤ) (content : String) (source_type : String)
    (created_at : ℤ) (relevance_score completeness_score accuracy_score : ℚ)
    (citation_count : ℕ) (user_feedback_score : ℚ) (r : ScoreResult)
    (h : score_content scorer now content source_type created_at
      relevance_score completeness_score accuracy_score citation_count
      user_feedback_score = Except.ok r) :
    0 ≤ r.overall_score ∧ r.overall_score ≤ 1 := by
  unfold score_content at h
  simp only [bind, Except.bind] at h
  split at h
  · simp at h
  split at h
  · simp at h
  split at h
  · simp at h
  split at h
  · simp at h
  split at h
  · simp at h
  split at h
  · simp at h
  split at h
  · simp at h
  cases h
  constructor
  · exact le_min (le_max_right _ _) (by norm_num)
  · exact min_le_right _ _

/-- The concrete result of scoring empty content from source type `memory`
with relevance, completeness, accuracy and feedback `1` and an extreme
citation count of `10000` (the default scorer returns successfully on this
input, so the fallback is never taken). -/
def c4_result : ScoreResult :=
  (score_content QualityScorer.init 0 "" "memory" 0 1 1 1 10000 1).toOption.getD
    ⟨0, .low, []⟩

/-- Witness for C4: at citation count `10000` (the citation value saturates at
`1`) the overall score stays inside `[0, 1]`. -/
theorem score_content_unit_interval_witness :
    0 ≤ c4_result.overall_score ∧ c4_result.overall_score ≤ 1 :=
  score_content_overall_in_unit_interval QualityScorer.init 0 "" "memory" 0
    1 1 1 10000 1 c4_result rfl

/-- A registered source entry from `ContentRouter.register_source`.  The
`handler` capability and `registered_at` wall-clock timestamp are omitted:
they are never read by the routing logic. -/
structure SourceInfo where
  type : String
  priority : ℤ
deriving DecidableEq

/-- Model of `ContentRouter.registered_sources`: a Python dict `source_id -> info`,
modelled as an insertion-ordered association list. -/
abbrev Registry := List (String × SourceInfo)

/-- One step of Python `max(candidates, key=lambda x: x[1])`: the running
maximum is replaced only when the new priority is strictly greater, so the
first maximal candidate wins. -/
def pickHigher (best p : String × SourceInfo) : String × SourceInfo :=
  if best.2.priority < p.2.priority then p else best

/-- Model of `ContentRouter._get_source_by_type`: among registered sources of the given
type, the id of the one with the highest priority (first one on ties), or
`none` when there is no match. -/
def get_source_by_type (reg : Registry) (source_type : String) :
    Option String :=
  match reg.filter (fun p => decide (p.2.type = source_type)) with
  | [] => none
  | c :: cs => some ((cs.foldl pickHigher c).1)

/-- The `RoutingStrategy` enum from router.py. -/
inductive RoutingStrategy where
  | memory_first
  | external_first
  | balanced
  | memory_only
  | external_only
deriving DecidableEq

/-- The `RoutingDecision` dataclass. -/
structure RoutingDecision where
  strategy : RoutingStrategy
  sources_to_query : List String
  expected_quality : ℚ
  reasoning : String
deriving DecidableEq

/-- Model of `ContentRouter._route_memory_first`.  The incremental string building of
`reasoning` in the source is modelled by its final value on each path. -/
def route_memory_first (reg : Registry) : RoutingDecision :=
  match get_source_by_type reg "memory" with
  | some m =>
      let external_source := get_source_by_type reg "web_search"
      let sources_to_query := match external_source with
        | some w => [m, w]
        | none => [m]
      let reasoning := match external_source with
        | some _ => "Memory-first strategy: querying memory first, with web fallback"
        | none => "Memory-first strategy: querying memory first"
      { strategy := .memory_first, sources_to_query,
        expected_quality := if 1 ≤ sources_to_query.length then 0.8 else 0.5,
        reasoning }
  | none =>
      let external_source := get_source_by_type reg "web_search"
      let sources_to_query := match external_source with
        | some w => [w]
        | none => []
      let reasoning := match external_source with
        | some _ => "No memory source available, using web search"
        | none => "Memory-first strategy: "
      { strategy := .memory_first, sources_to_query,
        expected_quality := if 1 ≤ sources_to_query.length then 0.8 else 0.5,
        reasoning }

/-- Model of `ContentRouter._route_external_first`. -/
def route_external_first (reg : Registry) : RoutingDecision :=
  let external_source := get_source_by_type reg "web_search"
  let memory_source := get_source_by_type reg "memory"
  let sources_to_query := external_source.toList ++ memory_source.toList
  { strategy := .external_first, sources_to_query,
    expected_quality := if sources_to_query.length = 2 then 0.85 else 0.6,
    reasoning := "External-first strategy: querying " ++
      toString sources_to_query.length ++ " sources" }

/-- Model of `ContentRouter._route_balanced`: every registered source id, in registry
iteration (= insertion) order. -/
def route_balanced (reg : Registry) : RoutingDecision :=
  let sources_to_query := reg.map Prod.fst
  { strategy := .balanced, sources_to_query,
    expected_quality := 0.9,
    reasoning := "Balanced strategy: querying all " ++
      toString sources_to_query.length ++ " sources" }

/-- Model of `ContentRouter._route_memory_only`. -/
def route_memory_only (reg : Registry) : RoutingDecision :=
  let sources_to_query := (get_source_by_type reg "memory").toList
  { strategy := .memory_only, sources_to_query,
    expected_quality := if sources_to_query ≠ [] then 0.75 else 0.0,
    reasoning := "Memory-only strategy" }

/-- Model of `ContentRouter._route_external_only`. -/
def route_external_only (reg : Registry) : RoutingDecision :=
  let sources_to_query := (get_source_by_type reg "web_search").toList
  { strategy := .external_only, sources_to_query,
    expected_quality := if sources_to_query ≠ [] then 0.7 else 0.0,
    reasoning := "External-only strategy" }

/-- Model of `ContentRouter.route_request`.  Strategy values are modelled as raw
strings: `RoutingStrategy` is a str-valued enum, so Python compares
`strategy == RoutingStrategy.MEMORY_FIRST` by string value and the final
`else` branch is reachable exactly for values outside the enum.  The source
line `strategy = strategy or self.default_strategy` replaces falsy values —
`None` and the empty string — by the default strategy. -/
def route_request (reg : Registry) (default_strategy : String)
    (strategy : Option String) : Except String RoutingDecision :=
  let s := match strategy with
    | none => default_strategy
    | some t => if t = "" then default_strategy else t
  if s = "memory_first" then Except.ok (route_memory_first reg)
  else if s = "external_first" then Except.ok (route_external_first reg)
  else if s = "balanced" then Except.ok (route_balanced reg)
  else if s = "memory_only" then Except.ok (route_memory_only reg)
  else if s = "external_only" then Except.ok (route_external_only reg)
  else Except.error ("Unknown routing strategy: " ++ s)

/-- C5: under the memory-first strategy: when both a memory-type and a
web_search-type source are selectable, the decision queries the memory source
then the web source, with expected quality `0.8`; with no memory source only
the web_search source (if any) is selected and the reasoning notes the
fallback; the expected quality is `0.8` when at least one source was selected
and `0.5` otherwise. -/
theorem route_memory_first_spec (reg : Registry) :
    (∀ m w, get_source_by_type reg "memory" = some m →
        get_source_by_type reg "web_search" = some w →
        (route_memory_first reg).sources_to_query = [m, w] ∧
        (route_memory_first reg).expected_quality = 0.8) ∧
    (∀ w, get_source_by_type reg "memory" = none →
        get_source_by_type reg "web_search" = some w →
        (route_memory_first reg).sources_to_query = [w] ∧
        (route_memory_first reg).reasoning =
          "No memory source available, using web search") ∧
    (get_source_by_type reg "memory" = none →
        get_source_by_type reg "web_search" = none →
        (route_memory_first reg).sources_to_query = []) ∧
    ((route_memory_first reg).sources_to_query ≠ [] →
        (route_memory_first reg).expected_quality = 0.8) ∧
    ((route_memory_first reg).sources_to_query = [] →
        (route_memory_first reg).expected_quality = 0.5) := by
  rcases hm : get_source_by_type reg "memory" with _ | m <;>
    rcases hw : get_source_by_type reg "web_search" with _ | w <;>
      simp [route_memory_first, hm, hw]

/-- A sample registry with one memory source and one web_search source, as in
the repository test fixture. -/
def sample_registry : Registry :=
  [("memory", ⟨"memory", 10⟩), ("web", ⟨"web_search", 5⟩)]

/-- Witness for C5: with both sources registered, the decision is
`[memory, web]` with expected quality `0.8`. -/
theorem route_memory_first_spec_witness :
    (route_memory_first sample_registry).sources_to_query = ["memory", "web"] ∧
    (route_memory_first sample_registry).expected_quality = 0.8 :=
  (route_memory_first_spec sample_registry).1 "memory" "web"
    (by decide) (by decide)

/-- C6 counterexample: the empty string is not one of the five enumerated
strategies, yet `route_request` does not fail on it: the source line
`strategy = strategy or self.default_strategy` treats the empty string (like
`None`) as falsy and silently substitutes the default strategy, so the call
returns the default-strategy decision instead of raising. -/
theorem route_request_empty_strategy_cex :
    ¬ ("" ∈ (["memory_first", "external_first", "balanced", "memory_only",
        "external_only"] : List String)) ∧
    route_request [] "memory_first" (some "") =
      Except.ok (route_memory_first []) := by
  constructor
  · decide
  · rfl

/-- C6 (amended): every nonempty strategy string outside the five enumerated
strategies fails immediately with the unknown-strategy error, and each of the
five known strategies dispatches to its handler and returns the decision of that handler; the empty strategy string (like `None`) instead falls back to the
default strategy. -/
theorem route_request_dispatch_spec (reg : Registry)
    (default_strategy s : String)
    (hs : ¬ s ∈ (["memory_first", "external_first", "balanced", "memory_only",
      "external_only"] : List String)) (hne : s ≠ "") :
    route_request reg default_strategy (some s) =
      Except.error ("Unknown routing strategy: " ++ s) ∧
    route_request reg default_strategy (some "memory_first") =
      Except.ok (route_memory_first reg) ∧
    route_request reg default_strategy (some "external_first") =
      Except.ok (route_external_first reg) ∧
    route_request reg default_strategy (some "balanced") =
      Except.ok (route_balanced reg) ∧
    route_request reg default_strategy (some "memory_only") =
      Except.ok (route_memory_only reg) ∧
    route_request reg default_strategy (some "external_only") =
      Except.ok (route_external_only reg) := by
  simp only [List.mem_cons, List.mem_singleton, not_or] at hs
  obtain ⟨n1, n2, n3, n4, n5, _⟩ := hs
  refine ⟨?_, rfl, rfl, rfl, rfl, rfl⟩
  simp [route_request, if_neg hne, n1, n2, n3, n4, n5]

/-- Witness for C6: the unknown strategy string `bogus` is rejected with the
unknown-strategy error while the five known strategies dispatch. -/
theorem route_request_dispatch_spec_witness :
    route_request [] "memory_first" (some "bogus") =
      Except.error ("Unknown routing strategy: " ++ "bogus") ∧
    route_request [] "memory_first" (some "memory_first") =
      Except.ok (route_memory_first []) ∧
    route_request [] "memory_first" (some "external_first") =
      Except.ok (route_external_first []) ∧
    route_request [] "memory_first" (some "balanced") =
      Except.ok (route_balanced []) ∧
    route_request [] "memory_first" (some "memory_only") =
      Except.ok (route_memory_only []) ∧
    route_request [] "memory_first" (some "external_only") =
      Except.ok (route_external_only []) :=
  route_request_dispatch_spec [] "memory_first" "bogus" (by decide) (by decide)

theorem foldl_choice_mem {α : Type} (f : α → α → α)
    (hf : ∀ a b, f a b = a ∨ f a b = b) (l : List α) :
    ∀ a : α, l.foldl f a ∈ a :: l := by
  induction l with
  | nil => intro a; simp
  | cons b l ih =>
      intro a
      simp only [List.foldl_cons]
      have hmem := ih (f a b)
      rcases hf a b with h | h <;> rw [h] at hmem ⊢ <;>
        rcases List.mem_cons.mp hmem with h2 | h2 <;> simp [h2]

theorem get_source_by_type_mem (reg : Registry) (t id : String)
    (h : get_source_by_type reg t = some id) :
    ∃ info : SourceInfo, (id, info) ∈ reg ∧ info.type = t := by
  unfold get_source_by_type at h
  rcases hf : reg.filter (fun p => decide (p.2.type = t)) with _ | ⟨c, cs⟩ <;>
    rw [hf] at h
  · cases h
  · simp only [Option.some.injEq] at h
    have hmem : cs.foldl pickHigher c ∈ c :: cs :=
      foldl_choice_mem pickHigher
        (by intro a b; unfold pickHigher; split <;> simp) cs c
    rw [← hf] at hmem
    have hmem2 := List.mem_filter.mp hmem
    refine ⟨(cs.foldl pickHigher c).2, ?_, by simpa using hmem2.2⟩
    rw [← h]
    simpa using hmem2.1

theorem get_source_by_type_isSome_iff (reg : Registry) (t : String) :
    (get_source_by_type reg t).isSome = true ↔
      ∃ p ∈ reg, (p : String × SourceInfo).2.type = t := by
  constructor
  · intro h
    rcases ho : get_source_by_type reg t with _ | id
    · rw [ho] at h; cases h
    · rcases get_source_by_type_mem reg t id ho with ⟨info, hm, htype⟩
      exact ⟨(id, info), hm, htype⟩
  · intro hex
    rcases hex with ⟨p, hp, hpt⟩
    unfold get_source_by_type
    rcases hf : reg.filter (fun q => decide (q.2.type = t)) with _ | ⟨c, cs⟩
    · exfalso
      have hmem : p ∈ reg.filter (fun q => decide (q.2.type = t)) :=
        List.mem_filter.mpr ⟨hp, by simp [hpt]⟩
      rw [hf] at hmem
      cases hmem
    · rw [hf]; rfl

theorem keys_nodup_value_unique {α β : Type} (l : List (α × β))
    (h : (l.map Prod.fst).Nodup) (k : α) (v1 v2 : β)
    (h1 : (k, v1) ∈ l) (h2 : (k, v2) ∈ l) : v1 = v2 := by
  induction l with
  | nil => cases h1
  | cons p ps ih =>
      simp only [List.map_cons, List.nodup_cons] at h
      rcases List.mem_cons.mp h1 with e1 | m1 <;>
        rcases List.mem_cons.mp h2 with e2 | m2
      · exact congrArg Prod.snd (e1.trans e2.symm)
      · exfalso
        apply h.1
        rw [← e1]
        exact List.mem_map.mpr ⟨(k, v2), m2, rfl⟩
      · exfalso
        apply h.1
        rw [← e2]
        exact List.mem_map.mpr ⟨(k, v1), m1, rfl⟩
      · exact ih h.2 m1 m2

theorem get_source_by_type_ne (reg : Registry)
    (hkeys : (reg.map Prod.fst).Nodup) (t1 t2 id1 id2 : String) (ht : t1 ≠ t2)
    (h1 : get_source_by_type reg t1 = some id1)
    (h2 : get_source_by_type reg t2 = some id2) : id1 ≠ id2 := by
  rcases get_source_by_type_mem _ _ _ h1 with ⟨i1, m1, e1⟩
  rcases get_source_by_type_mem _ _ _ h2 with ⟨i2, m2, e2⟩
  intro he
  subst he
  have heq := keys_nodup_value_unique reg hkeys id1 i1 i2 m1 m2
  rw [heq] at e1
  exact ht (e1.symm.trans e2)

/-- C10: for every registry whose source ids are distinct, every query and
every successful routing call, the decision queries no source id twice: each
per-type lookup returns a single id, ids of different types differ, and the
balanced strategy returns the distinct registry keys. -/
theorem routing_decision_sources_nodup (reg : Registry)
    (default_strategy : String) (strategy : Option String)
    (dec : RoutingDecision) (hkeys : (reg.map Prod.fst).Nodup)
    (h : route_request reg default_strategy strategy = Except.ok dec) :
    dec.sources_to_query.Nodup := by
  have hmem : ∀ dec2 : RoutingDecision, dec2 = route_memory_first reg →
      dec2.sources_to_query.Nodup := by
    intro dec2 hd
    subst hd
    unfold route_memory_first
    rcases hm : get_source_by_type reg "memory" with _ | m <;>
      rcases hw : get_source_by_type reg "web_search" with _ | w <;>
        simp [hm, hw]
    exact get_source_by_type_ne reg hkeys "memory" "web_search" m w
      (by decide) hm hw
  have hext : ∀ dec2 : RoutingDecision, dec2 = route_external_first reg →
      dec2.sources_to_query.Nodup := by
    intro dec2 hd
    subst hd
    unfold route_external_first
    rcases hm : get_source_by_type reg "memory" with _ | m <;>
      rcases hw : get_source_by_type reg "web_search" with _ | w <;>
        simp [hm, hw]
    exact (get_source_by_type_ne reg hkeys "memory" "web_search" m w
      (by decide) hm hw).symm
  have honly : ∀ t : String, ((get_source_by_type reg t).toList).Nodup := by
    intro t
    rcases get_source_by_type reg t with _ | m <;> simp
  unfold route_request at h
  simp only [] at h
  split_ifs at h <;> cases h
  · exact hmem _ rfl
  · exact hext _ rfl
  · exact hkeys
  · exact honly "memory"
  · exact honly "web_search"

/-- Witness for C10: the balanced strategy over the sample registry selects
each of the two distinct source ids exactly once. -/
theorem routing_decision_sources_nodup_witness :
    (route_balanced sample_registry).sources_to_query.Nodup :=
  routing_decision_sources_nodup sample_registry "memory_first"
    (some "balanced") (route_balanced sample_registry) (by decide) (by rfl)

/-- Python `s.lower()` (character-wise `Char.toLower`). -/
def pyLower (s : String) : String :=
  String.mk (s.data.map Char.toLower)

/-- Python `hay.startswith(pat)` on character lists. -/
def startsWithList : List Char → List Char → Bool
  | _, [] => true
  | [], _ :: _ => false
  | c :: cs, d :: ds => c == d && startsWithList cs ds

/-- Helper for Python substring membership on character lists. -/
def occursList (pat : List Char) : List Char → Bool
  | [] => startsWithList [] pat
  | c :: rest => startsWithList (c :: rest) pat || occursList pat rest

/-- Python substring membership `pat in hay`. -/
def pyInStr (pat hay : String) : Bool :=
  occursList pat.data hay.data

/-- The `ContentSource` pydantic model from mcp_protocol.py.  The free-form
`metadata` map is omitted: the routing and synthesis logic never reads it.
`last_updated` is an integer timestamp like the other clock values. -/
structure ContentSource where
  source_id : String
  source_type : String
  name : String
  quality_score : ℚ
  confidence_score : ℚ
  last_updated : ℤ
deriving DecidableEq

/-- The `ContentBlock` pydantic model from mcp_protocol.py. -/
structure ContentBlock where
  content_id : String
  source : ContentSource
  title : Option String
  body : String
  summary : Option String
  keywords : List String
  relevance_score : ℚ
  created_at : ℤ
  updated_at : ℤ
deriving DecidableEq

/-- The `SynthesizedContent` pydantic model from mcp_protocol.py (the
default-now `timestamp` field is omitted as pure wall clock).  A
contradiction record `{source1, source2, description}` is a string triple. -/
structure SynthesizedContent where
  synthesis_id : String
  query : String
  aggregated_content : String
  sources : List ContentSource
  quality_score : ℚ
  contradictions : List (String × String × String)
  gaps : List String
  recommendations : List String
deriving DecidableEq

/-- One insertion step of a stable descending sort by `relevance_score`: the
new block goes after every already-placed block whose score is at least as
large, and before the first strictly smaller one. -/
def insertByRelevance (b : ContentBlock) :
    List ContentBlock → List ContentBlock
  | [] => [b]
  | c :: cs =>
      if b.relevance_score ≤ c.relevance_score then c :: insertByRelevance b cs
      else b :: c :: cs

/-- Python `sorted(content_blocks, key=lambda x: x.relevance_score,
reverse=True)`: a stable descending sort.  Python sorting is stable, and every
stable descending sort of the same key computes the same list, so insertion
sort in input order is an exact model. -/
def sortByRelevanceDesc (content_blocks : List ContentBlock) :
    List ContentBlock :=
  content_blocks.foldl (fun acc b => insertByRelevance b acc) []

/-- Model of `ContentRouter._aggregate_content`: empty input gives the empty string;
otherwise blocks are sorted descending by relevance and each body is followed
by its source attribution line, blocks separated by a blank line. -/
def aggregate_content (content_blocks : List ContentBlock) : String :=
  if content_blocks.isEmpty then ""
  else
    let sorted_blocks := sortByRelevanceDesc content_blocks
    let aggregated := sorted_blocks.map
      (fun b => b.body ++ "\n[Source: " ++ b.source.name ++ "]")
    String.intercalate "\n\n" aggregated

/-- Python line `sources = list(set(block.source for block in
content_blocks))` in `ContentRouter.synthesize_content`.  `ContentSource` is a
pydantic `BaseModel` without `frozen=True`: such models define `__eq__` but no
`__hash__`, so their instances are unhashable, and inserting the first one
into the set raises `TypeError`.  With an empty block list the set is empty
and the expression yields the empty list. -/
def pySetSources (content_blocks : List ContentBlock) :
    Except String (List ContentSource) :=
  match content_blocks with
  | [] => Except.ok []
  | _ :: _ => Except.error "TypeError: unhashable type: ContentSource"

/-- Model of `ContentRouter._blocks_contradict`: the placeholder conflict predicate,
always false. -/
def blocks_contradict (_block1 _block2 : ContentBlock) : Bool :=
  false

/-- Model of `ContentRouter._find_contradictions`: every ordered pair `i < j` of blocks
is tested with the pairwise predicate (the `len >= 2` guard in the source is
redundant). -/
def find_contradictions : List ContentBlock → List (String × String × String)
  | [] => []
  | b1 :: rest =>
      (rest.filter (fun b2 => blocks_contradict b1 b2)).map
        (fun b2 => (b1.source.name, b2.source.name,
          "Potentially conflicting information detected"))
      ++ find_contradictions rest

/-- Model of `ContentRouter._identify_gaps`: query tokens longer than three characters
that occur nowhere in the lowercased concatenated bodies are reported as one
missing-coverage entry; zero blocks add the no-content entry, exactly one
block adds the single-source entry. -/
def identify_gaps (content_blocks : List ContentBlock) (query : String) :
    List String :=
  let query_terms := pySplitWs (pyLower query)
  let combined_text := String.intercalate " "
    (content_blocks.map (fun b => pyLower b.body))
  let missing_terms := query_terms.filter
    (fun term => 3 < term.length && !(pyInStr term combined_text))
  let gaps1 :=
    if missing_terms.isEmpty then []
    else ["Missing coverage on: " ++ String.intercalate ", " missing_terms]
  let gaps2 :=
    if content_blocks.isEmpty then ["No content available for query"]
    else if content_blocks.length = 1 then
      ["Only single source available, multiple sources recommended"]
    else []
  gaps1 ++ gaps2

/-- Model of `ContentRouter._generate_recommendations`. -/
def generate_recommendations (content_blocks : List ContentBlock)
    (contradictions : List (String × String × String)) (gaps : List String) :
    List String :=
  let r1 :=
    if contradictions.isEmpty then []
    else ["Verify " ++ toString contradictions.length ++
      " contradiction(s) between sources"]
  let r2 := match gaps with
    | [] => []
    | g :: _ => ["Additional research needed: " ++ g]
  let r3 :=
    if content_blocks.length < 2 then
      ["Consult multiple sources for better coverage"]
    else []
  let avg_quality : ℚ :=
    if content_blocks.isEmpty then 0
    else (content_blocks.map (fun b => b.relevance_score)).sum /
      (content_blocks.length : ℚ)
  let r4 :=
    if avg_quality < 0.6 then
      ["Consider re-querying with refined search terms"]
    else []
  r1 ++ r2 ++ r3 ++ r4

/-- Model of `ContentRouter.synthesize_content`.  The synthesis id is
`f"syn_{datetime.utcnow().timestamp()}"` in the source; the wall clock is
abstracted as the `synthesis_id` parameter.  Aggregation is computed before
the source-set extraction, which raises `TypeError` for every nonempty block
list (see `pySetSources`); on the empty list the call returns normally. -/
def synthesize_content (synthesis_id query : String)
    (content_blocks : List ContentBlock) :
    Except String SynthesizedContent :=
  let aggregated_content := aggregate_content content_blocks
  match pySetSources content_blocks with
  | Except.error e => Except.error e
  | Except.ok sources =>
      let contradictions := find_contradictions content_blocks
      let gaps := identify_gaps content_blocks query
      let quality_score : ℚ :=
        if content_blocks.isEmpty then 0
        else (content_blocks.map (fun b => b.relevance_score)).sum /
          (content_blocks.length : ℚ)
      let recommendations := generate_recommendations content_blocks
        contradictions gaps
      Except.ok ⟨synthesis_id, query, aggregated_content, sources,
        quality_score, contradictions, gaps, recommendations⟩

/-- C7: synthesizing an empty block sequence returns normally (not an error)
with empty aggregated content, quality score `0`, and the gap entry
"No content available for query". -/
theorem synthesize_empty_blocks_spec (synthesis_id query : String) :
    ∃ r : SynthesizedContent,
      synthesize_content synthesis_id query [] = Except.ok r ∧
      r.aggregated_content = "" ∧
      r.quality_score = 0 ∧
      "No content available for query" ∈ r.gaps := by
  refine ⟨_, rfl, rfl, rfl, ?_⟩
  show _ ∈ identify_gaps [] query
  unfold identify_gaps
  exact List.mem_append.mpr (Or.inr (by simp))

/-- The memory-backed source of the repository test fixture for synthesis. -/
def memory_source : ContentSource :=
  ⟨"src1", "memory", "Memory Source", 0.95, 0.9, 0⟩

/-- The web-search source of the repository test fixture for synthesis. -/
def web_source : ContentSource :=
  ⟨"src2", "web_search", "Web Source", 0.85, 0.8, 0⟩

/-- The relevance-0.9 block from the memory source. -/
def memory_block : ContentBlock :=
  ⟨"block1", memory_source, some "Memory Content", "Content from memory",
    none, [], 0.9, 0, 0⟩

/-- The relevance-0.8 block from the web source. -/
def web_block : ContentBlock :=
  ⟨"block2", web_source, some "Web Content", "Content from web",
    none, [], 0.8, 0, 0⟩

/-- C2, evaluated at the failing input: with two blocks from two distinct
sources, `synthesize_content` returns no source list at all: building
`set(block.source ...)` raises `TypeError` because non-frozen pydantic models
are unhashable.  The repository test `test_content_aggregation` expects this
call to succeed with two sources. -/
theorem synthesize_distinct_sources_cex :
    memory_block.source ≠ web_block.source ∧
    synthesize_content "syn" "test query" [memory_block, web_block] =
      Except.error "TypeError: unhashable type: ContentSource" := by
  constructor
  · simp [memory_block, web_block, memory_source, web_source]
  · rfl

/-- C8, evaluated at the failing input: `_aggregate_content` does place the
relevance-0.9 body before the relevance-0.8 body (with attribution lines and a
blank-line separator), and the mean of the relevance scores is `0.85`; but
`synthesize_content` itself raises `TypeError` at the source-set step (see
`pySetSources`) before any result carrying `quality_score` is produced. -/
theorem aggregate_two_blocks_cex :
    aggregate_content [web_block, memory_block] =
      "Content from memory\n[Source: Memory Source]\n\nContent from web\n[Source: Web Source]" ∧
    ([web_block, memory_block].map (fun b => b.relevance_score)).sum /
      (([web_block, memory_block] : List ContentBlock).length : ℚ) = 0.85 ∧
    synthesize_content "syn" "test query" [web_block, memory_block] =
      Except.error "TypeError: unhashable type: ContentSource" := by
  refine ⟨?_, ?_, rfl⟩
  · norm_num +decide [aggregate_content, sortByRelevanceDesc, insertByRelevance,
      web_block, memory_block, memory_source, web_source, List.foldl,
      String.intercalate]
  · norm_num [web_block, memory_block]
